import Mathlib

/-!
# Tech Copilot — verification of the troubleshooting cache and mobile API wrappers

Shallow embedding of the repository's backend cache layer (`app/utils/hash.py`,
`app/db/models/cache.py`, `app/core/cache.py`, the `/troubleshoot` route example)
and of the React Native API wrappers (the axios wrapper and the two fetch-based
wrappers), together with theorems settling the specification claims.

Machine words are modelled as `Nat` reduced mod `2 ^ 32` where overflow matters;
Python/JS strings are Lean `String`s (case mapping and whitespace are modelled
on the ASCII range, the only range exercised by the code's inputs).
-/

namespace TechCopilot

/-! ## Python string primitives used by `create_query_hash` -/

/-- ASCII lower-casing of one character, as Python `str.lower` acts on ASCII. -/
def pyLowerChar (c : Char) : Char :=
  if 'A' ≤ c ∧ c ≤ 'Z' then Char.ofNat (c.toNat + 32) else c

/-- ASCII upper-casing of one character, as Python `str.upper` acts on ASCII. -/
def pyUpperChar (c : Char) : Char :=
  if 'a' ≤ c ∧ c ≤ 'z' then Char.ofNat (c.toNat - 32) else c

def pyLower (s : String) : String := String.mk (s.toList.map pyLowerChar)

def pyUpper (s : String) : String := String.mk (s.toList.map pyUpperChar)

/-- The whitespace characters stripped by Python `str.strip()` (ASCII range):
space, tab, newline, carriage return, vertical tab, form feed. -/
def isPyWs (c : Char) : Bool :=
  c == ' ' || c == '\t' || c == '\n' || c == '\r' ||
  c == Char.ofNat 11 || c == Char.ofNat 12

/-- Python `str.strip()`: drop leading and trailing whitespace. -/
def pyStrip (s : String) : String :=
  String.mk (((s.toList.dropWhile isPyWs).reverse.dropWhile isPyWs).reverse)

/-! ## Python `json.dumps` of the normalized query dict (`sort_keys=True`) -/

/-- A hex digit character, lowercase as produced by `json.dumps`/`hexdigest`. -/
def hexDigit (n : Nat) : Char :=
  if n < 10 then Char.ofNat (48 + n) else Char.ofNat (87 + n)

def hex4 (n : Nat) : String :=
  String.mk [hexDigit (n / 4096 % 16), hexDigit (n / 256 % 16),
             hexDigit (n / 16 % 16), hexDigit (n % 16)]

/-- Escaping of one character in a JSON string literal, as Python `json.dumps`
does with its default `ensure_ascii=True`. -/
def jsonEscapeChar (c : Char) : String :=
  if c = '\\' then "\\\\"
  else if c = '"' then "\\\""
  else if c = '\n' then "\\n"
  else if c = '\r' then "\\r"
  else if c = '\t' then "\\t"
  else if c = Char.ofNat 8 then "\\b"
  else if c = Char.ofNat 12 then "\\f"
  else if c.toNat < 32 then "\\u" ++ hex4 c.toNat
  else if c.toNat < 127 then String.singleton c
  else if c.toNat < 65536 then "\\u" ++ hex4 c.toNat
  else
    "\\u" ++ hex4 (55296 + (c.toNat - 65536) / 1024) ++
    "\\u" ++ hex4 (56320 + (c.toNat - 65536) % 1024)

/-- A JSON string literal for `s`, Python `json.dumps` style. -/
def pyJsonStr (s : String) : String :=
  "\"" ++ String.join (s.toList.map jsonEscapeChar) ++ "\""

/-- The normalized query fields built inside `create_query_hash`
(`app/utils/hash.py`). -/
structure NormQuery where
  manufacturer : String
  model : String
  errorCode : String
  symptom : String
deriving DecidableEq, Repr

/-- The normalization performed by `create_query_hash`: manufacturer, model and
symptom are lower-cased then stripped; error_code is upper-cased then stripped;
a falsy (empty) error_code or symptom stays the empty string. -/
def normalizeQuery (manufacturer model error_code symptom : String) : NormQuery :=
  { manufacturer := pyStrip (pyLower manufacturer)
    model := pyStrip (pyLower model)
    errorCode := if error_code = "" then "" else pyStrip (pyUpper error_code)
    symptom := if symptom = "" then "" else pyStrip (pyLower symptom) }

/-- `json.dumps(data, sort_keys=True)` for the normalized query dict: keys in
sorted order (`error_code`, `manufacturer`, `model`, `symptom`), default
separators. -/
def queryJson (q : NormQuery) : String :=
  "\x7b\"error_code\": " ++ pyJsonStr q.errorCode ++
  ", \"manufacturer\": " ++ pyJsonStr q.manufacturer ++
  ", \"model\": " ++ pyJsonStr q.model ++
  ", \"symptom\": " ++ pyJsonStr q.symptom ++ "\x7d"

/-! ## SHA-256 (`hashlib.sha256(...).hexdigest()` on the UTF-8 encoding) -/

/-- UTF-8 encoding of one character (Python `str.encode()`). -/
def utf8Bytes (c : Char) : List Nat :=
  let n := c.toNat
  if n < 128 then [n]
  else if n < 2048 then [192 + n / 64, 128 + n % 64]
  else if n < 65536 then [224 + n / 4096, 128 + n / 64 % 64, 128 + n % 64]
  else [240 + n / 262144, 128 + n / 4096 % 64, 128 + n / 64 % 64, 128 + n % 64]

def strBytes (s : String) : List Nat :=
  (s.toList.map utf8Bytes).flatten

/-- Right rotation of a 32-bit word (input assumed `< 2 ^ 32`). -/
def rotr32 (k n : Nat) : Nat := n / 2 ^ k + n % 2 ^ k * 2 ^ (32 - k)

/-- 32-bit complement. -/
def not32 (n : Nat) : Nat := 4294967295 ^^^ n

def bigSigma0 (n : Nat) : Nat := rotr32 2 n ^^^ rotr32 13 n ^^^ rotr32 22 n
def bigSigma1 (n : Nat) : Nat := rotr32 6 n ^^^ rotr32 11 n ^^^ rotr32 25 n
def smallSigma0 (n : Nat) : Nat := rotr32 7 n ^^^ rotr32 18 n ^^^ n / 2 ^ 3
def smallSigma1 (n : Nat) : Nat := rotr32 17 n ^^^ rotr32 19 n ^^^ n / 2 ^ 10

def ch32 (e f g : Nat) : Nat := (e &&& f) ^^^ (not32 e &&& g)
def maj32 (a b c : Nat) : Nat := (a &&& b) ^^^ (a &&& c) ^^^ (b &&& c)

/-- The SHA-256 round constants. -/
def sha256K : List Nat :=
  [1116352408, 1899447441, 3049323471, 3921009573, 961987163, 1508970993,
   2453635748, 2870763221, 3624381080, 310598401, 607225278, 1426881987,
   1925078388, 2162078206, 2614888103, 3248222580, 3835390401, 4022224774,
   264347078, 604807628, 770255983, 1249150122, 1555081692, 1996064986,
   2554220882, 2821834349, 2952996808, 3210313671, 3336571891, 3584528711,
   113926993, 338241895, 666307205, 773529912, 1294757372, 1396182291,
   1695183700, 1986661051, 2177026350, 2456956037, 2730485921, 2820302411,
   3259730800, 3345764771, 3516065817, 3600352804, 4094571909, 275423344,
   430227734, 506948616, 659060556, 883997877, 958139571, 1322822218,
   1537002063, 1747873779, 1955562222, 2024104815, 2227730452, 2361852424,
   2428436474, 2756734187, 3204031479, 3329325298]

/-- The SHA-256 initial hash value. -/
def sha256H0 : List Nat :=
  [1779033703, 3144134277, 1013904242, 2773480762,
   1359893119, 2600822924, 528734635, 1541459225]

/-- Extend a 16-word block to the 64-word message schedule (`n` extension
steps remaining). -/
def schedExtend : Nat → List Nat → List Nat
  | 0, ws => ws
  | n + 1, ws =>
      let len := ws.length
      let nw := (ws.getD (len - 16) 0 + smallSigma0 (ws.getD (len - 15) 0) +
                 ws.getD (len - 7) 0 + smallSigma1 (ws.getD (len - 2) 0)) % 2 ^ 32
      schedExtend n (ws ++ [nw])

/-- One SHA-256 compression round on the working state `[a,b,c,d,e,f,g,h]`. -/
def roundStep (st : List Nat) (kw : Nat × Nat) : List Nat :=
  match st with
  | [a, b, c, d, e, f, g, h] =>
      let t1 := (h + bigSigma1 e + ch32 e f g + kw.1 + kw.2) % 2 ^ 32
      let t2 := (bigSigma0 a + maj32 a b c) % 2 ^ 32
      [(t1 + t2) % 2 ^ 32, a, b, c, (d + t1) % 2 ^ 32, e, f, g]
  | st => st

/-- Compress one 16-word block into the running hash. -/
def compressBlock (H block : List Nat) : List Nat :=
  let ws := schedExtend 48 block
  let st := List.foldl roundStep H (sha256K.zip ws)
  (H.zip st).map fun p => (p.1 + p.2) % 2 ^ 32

/-- Big-endian 8-byte encoding of the bit length. -/
def be64 (n : Nat) : List Nat :=
  [n / 2 ^ 56 % 256, n / 2 ^ 48 % 256, n / 2 ^ 40 % 256, n / 2 ^ 32 % 256,
   n / 2 ^ 24 % 256, n / 2 ^ 16 % 256, n / 2 ^ 8 % 256, n % 256]

/-- SHA-256 padding: append `0x80`, zeros to 56 mod 64, then the bit length. -/
def padMessage (msg : List Nat) : List Nat :=
  let L := msg.length
  msg ++ 128 :: List.replicate ((119 - L % 64) % 64) 0 ++ be64 (8 * L)

/-- Group bytes into big-endian 32-bit words. -/
def bytesToWords : List Nat → List Nat
  | a :: b :: c :: d :: rest => (((a * 256 + b) * 256 + c) * 256 + d) :: bytesToWords rest
  | _ => []

/-- Group words into 16-word blocks (input length is a multiple of 16). -/
def toBlocks16 : List Nat → List (List Nat)
  | w0 :: w1 :: w2 :: w3 :: w4 :: w5 :: w6 :: w7 ::
    w8 :: w9 :: w10 :: w11 :: w12 :: w13 :: w14 :: w15 :: rest =>
      [w0, w1, w2, w3, w4, w5, w6, w7, w8, w9, w10, w11, w12, w13, w14, w15] ::
      toBlocks16 rest
  | _ => []

def hex8 (n : Nat) : String := hex4 (n / 65536) ++ hex4 (n % 65536)

/-- `hashlib.sha256(bytes).hexdigest()`. -/
def sha256Hex (msg : List Nat) : String :=
  let H := (toBlocks16 (bytesToWords (padMessage msg))).foldl compressBlock sha256H0
  String.join (H.map hex8)

/-- `create_query_hash` (`app/utils/hash.py`): normalize the four query fields,
JSON-encode them with sorted keys, and return the hex SHA-256 digest of the
UTF-8 encoding. -/
def create_query_hash (manufacturer model error_code symptom : String) : String :=
  sha256Hex (strBytes (queryJson (normalizeQuery manufacturer model error_code symptom)))

/-! ## JSON values (JSONB columns, parsed HTTP bodies) -/

/-- A JSON value: JSONB column contents, parsed response bodies, request
bodies built by `JSON.stringify`. -/
inductive Json where
  | null
  | bool (b : Bool)
  | num (n : Int)
  | str (s : String)
  | arr (xs : List Json)
  | obj (fields : List (String × Json))
deriving Repr

/-! ## The troubleshooting cache (`app/db/models/cache.py`, `app/core/cache.py`) -/

/-- One row of `troubleshooting_cache`. Timestamps are `Nat` seconds;
`DECIMAL` money/score columns are modelled as scaled integers. -/
structure CacheEntry where
  equipmentManufacturer : String
  equipmentModel : String
  errorCode : Option String
  symptom : Option String
  queryHash : String
  responseData : Json
  sourceManualIds : List Int
  confidenceScore : Option Int
  citations : Json
  responseTimeMs : Option Int
  claudeModel : Option String
  promptTokens : Option Int
  completionTokens : Option Int
  costUsd : Int
  timesServed : Nat
  upvotes : Nat
  downvotes : Nat
  createdAt : Nat
  expiresAt : Nat
  lastServed : Nat

/-- The cache table: a list of rows in insertion order. -/
structure CacheDB where
  entries : List CacheEntry

/-- The schema's TTL: `expires_at` defaults to `NOW() + INTERVAL '30 days'`. -/
def thirtyDays : Nat := 30 * 24 * 60 * 60

/-- The dict returned by `check_cache` on a hit
(`{"found": True, "response": ..., "cached_at": ..., "times_served": ...}`);
a miss (`{"found": False}`) is `none`. -/
structure CacheHit where
  response : Json
  cachedAt : Nat
  timesServed : Nat

/-- The filter of `check_cache`'s SELECT: same `query_hash` and
`expires_at > datetime.utcnow()`. -/
def liveMatch (h : String) (now : Nat) (e : CacheEntry) : Bool :=
  e.queryHash == h && decide (now < e.expiresAt)

/-- The usage-stat update `check_cache` applies to a hit entry:
`times_served += 1`, `last_served = utcnow()`. -/
def bumpServed (now : Nat) (e : CacheEntry) : CacheEntry :=
  { e with timesServed := e.timesServed + 1, lastServed := now }

/-- `first()`-style lookup with in-place update: apply `f` to the first entry
satisfying `p`, return it (post-update) and the updated list. -/
def updateFirst (p : CacheEntry → Bool) (f : CacheEntry → CacheEntry) :
    List CacheEntry → Option CacheEntry × List CacheEntry
  | [] => (none, [])
  | e :: es =>
      if p e then (some (f e), f e :: es)
      else
        let r := updateFirst p f es
        (r.1, e :: r.2)

/-- `check_cache` (`app/core/cache.py`): SELECT by query hash among unexpired
rows; on a hit bump the usage stats and return the found-dict, else report
not-found. Returns the result together with the database after commit. -/
def check_cache (db : CacheDB) (now : Nat) (manufacturer model : String)
    (error_code symptom : Option String) : Option CacheHit × CacheDB :=
  let h := create_query_hash manufacturer model (error_code.getD "") (symptom.getD "")
  let r := updateFirst (liveMatch h now) (bumpServed now) db.entries
  match r.1 with
  | some e =>
      (some { response := e.responseData, cachedAt := e.createdAt,
              timesServed := e.timesServed }, ⟨r.2⟩)
  | none => (none, ⟨r.2⟩)

/-- The predicate of `save_to_cache`'s SELECT: equality on `query_hash` only. -/
def hashMatch (h : String) (e : CacheEntry) : Bool := e.queryHash == h

/-- The in-place overwrite `save_to_cache` applies to an existing row. -/
def saveUpd (response : Json) (manual_ids : List Int) (response_time_ms : Int)
    (cost_usd : Int) (now : Nat) (e : CacheEntry) : CacheEntry :=
  { e with responseData := response, sourceManualIds := manual_ids,
           responseTimeMs := some response_time_ms, costUsd := cost_usd,
           lastServed := now }

/-- The fresh row `save_to_cache` inserts, with the model's column defaults. -/
def newEntry (now : Nat) (manufacturer model : String)
    (error_code symptom : Option String) (h : String) (response : Json)
    (manual_ids : List Int) (response_time_ms : Int) (cost_usd : Int) : CacheEntry :=
  { equipmentManufacturer := manufacturer, equipmentModel := model,
    errorCode := error_code, symptom := symptom, queryHash := h,
    responseData := response, sourceManualIds := manual_ids,
    confidenceScore := none, citations := Json.null,
    responseTimeMs := some response_time_ms,
    claudeModel := some "claude-sonnet-4-20250514",
    promptTokens := none, completionTokens := none,
    costUsd := cost_usd, timesServed := 1, upvotes := 0, downvotes := 0,
    createdAt := now, expiresAt := now + thirtyDays, lastServed := now }

/-- `save_to_cache` (`app/core/cache.py`): if a row with the query hash exists,
overwrite its response fields in place; otherwise insert a new row whose
column defaults come from the `TroubleshootingCache` model
(`times_served=1`, votes 0, `created_at=NOW()`,
`expires_at=NOW()+30 days`, `last_served=NOW()`). -/
def save_to_cache (db : CacheDB) (now : Nat) (manufacturer model : String)
    (error_code symptom : Option String) (response : Json)
    (manual_ids : List Int) (response_time_ms : Int) (cost_usd : Int) : CacheDB :=
  let h := create_query_hash manufacturer model (error_code.getD "") (symptom.getD "")
  let r := updateFirst (hashMatch h) (saveUpd response manual_ids response_time_ms cost_usd now)
             db.entries
  match r.1 with
  | some _ => ⟨r.2⟩
  | none =>
      ⟨db.entries ++
        [newEntry now manufacturer model error_code symptom h response
           manual_ids response_time_ms cost_usd]⟩

/-! ## The `/troubleshoot` route (`app/api/v1/troubleshooting.py` example) -/

/-- The troubleshoot request fields the cache layer consumes. -/
structure TRequest where
  manufacturer : String
  model : String
  errorCode : Option String
  symptom : Option String

/-- The externally visible effects of the route, in execution order. -/
inductive RouteEvent where
  | cacheCheck
  | aiCall
  | cacheSave
deriving DecidableEq, Repr

/-- What the route returns: the cache's found-dict on a hit, or the fresh
AI response on a miss. -/
inductive RouteResult where
  | cached (hit : CacheHit)
  | fresh (response : Json)

/-- A Claude API reply together with the call metadata the route passes on to
`save_to_cache`. -/
structure AIResult where
  response : Json
  manualIds : List Int
  responseTimeMs : Int
  costUsd : Int

/-- The `/troubleshoot` endpoint: check the cache first; on a hit return the
cached response; only on a miss call the AI (`troubleshoot_with_claude`,
modelled as the oracle `ai`), save the fresh response, and return it. The
event list records which external effects ran, in order. -/
def troubleshoot (ai : TRequest → AIResult) (db : CacheDB) (now : Nat)
    (req : TRequest) : RouteResult × CacheDB × List RouteEvent :=
  let c := check_cache db now req.manufacturer req.model req.errorCode req.symptom
  match c.1 with
  | some hit => (RouteResult.cached hit, c.2, [RouteEvent.cacheCheck])
  | none =>
      let a := ai req
      let db2 := save_to_cache c.2 now req.manufacturer req.model req.errorCode
                   req.symptom a.response a.manualIds a.responseTimeMs a.costUsd
      (RouteResult.fresh a.response, db2,
       [RouteEvent.cacheCheck, RouteEvent.aiCall, RouteEvent.cacheSave])

/-- The TTL relation of the schema: `expires_at` is 30 days after `created_at`. -/
def entryTTL (e : CacheEntry) : Prop := e.expiresAt = e.createdAt + thirtyDays

/-- The `UNIQUE` constraint on `query_hash`: no two rows share a hash. -/
def hashesNodup (db : CacheDB) : Prop :=
  (db.entries.map CacheEntry.queryHash).Nodup

/-- The empty cache table. -/
def emptyDB : CacheDB := ⟨[]⟩

/-! ## Concrete cache data used by the witnesses -/

/-- A cache row for the query (manufacturer `a`, model `b`, no error code, no
symptom); its `query_hash` is the digest computed above. -/
def sampleEntry : CacheEntry :=
  { equipmentManufacturer := "a", equipmentModel := "b",
    errorCode := none, symptom := none,
    queryHash := "d305cbe41ac511ece226047740b47fa0e543dd9e264c308d25396fed00a57c2a",
    responseData := Json.str "steps", sourceManualIds := [],
    confidenceScore := none, citations := Json.null,
    responseTimeMs := some 100, claudeModel := some "claude-sonnet-4-20250514",
    promptTokens := none, completionTokens := none, costUsd := 0,
    timesServed := 1, upvotes := 0, downvotes := 0,
    createdAt := 100, expiresAt := 100 + thirtyDays, lastServed := 100 }

def sampleDB : CacheDB := ⟨[sampleEntry]⟩

def sampleReq : TRequest := ⟨"a", "b", none, none⟩

def sampleAI : TRequest → AIResult := fun _ => ⟨Json.str "fresh", [], 5, 0⟩

/-! ## JS objects, headers and the secure store -/

/-- Assignment `obj[k] = v` on a JS object (assoc list in insertion order):
replace the value in place if the key exists, else append the pair. -/
def hset (k v : String) : List (String × String) → List (String × String)
  | [] => [(k, v)]
  | p :: ps => if p.1 == k then (k, v) :: ps else p :: hset k v ps

/-- Property lookup `obj[k]`. -/
def hget (m : List (String × String)) (k : String) : Option String :=
  (m.find? (fun p => p.1 == k)).map (fun p => p.2)

/-- `SecureStore.deleteItemAsync`: drop the key. -/
def sdel (m : List (String × String)) (k : String) : List (String × String) :=
  m.filter (fun p => !(p.1 == k))

/-- `getAuthToken()`: `SecureStore.getItemAsync('accessToken')`. -/
def getAuthToken (store : List (String × String)) : Option String :=
  hget store "accessToken"

/-- The headers built by `fetchWithAuth` (identical in part_005 and part_006):
the literal starts with `Content-Type: application/json`, the caller's
`options.headers` are spread over it, then `if (token)` — a truthy (present
and non-empty) token — assigns `Authorization: Bearer <token>`. -/
def fetchWithAuthHeaders (token : Option String)
    (callerHeaders : List (String × String)) : List (String × String) :=
  let base := [("Content-Type", "application/json")]
  let merged := callerHeaders.foldl (fun m p => hset p.1 p.2 m) base
  match token with
  | some t => if t = "" then merged else hset "Authorization" ("Bearer " ++ t) merged
  | none => merged

/-- The headers of a part_004 axios request: the instance default
`Content-Type: application/json` plus the request interceptor's
`Authorization` assignment under the same `if (token)` truthiness check. -/
def axiosRequestHeaders (token : Option String) : List (String × String) :=
  match token with
  | some t =>
      if t = "" then [("Content-Type", "application/json")]
      else hset "Authorization" ("Bearer " ++ t) [("Content-Type", "application/json")]
  | none => [("Content-Type", "application/json")]

/-! ## URL query encoding (`URLSearchParams`, axios params serializer) -/

def hexDigitUpper (n : Nat) : Char :=
  if n < 10 then Char.ofNat (48 + n) else Char.ofNat (55 + n)

/-- A percent-encoded byte (`%XX`, uppercase hex). -/
def pctByte (b : Nat) : String :=
  String.mk ['%', hexDigitUpper (b / 16), hexDigitUpper (b % 16)]

/-- `URLSearchParams` (application/x-www-form-urlencoded) encoding of one
character: space becomes `+`; ASCII alphanumerics and `*-._` stay; everything
else is percent-encoded UTF-8. -/
def formEncodeChar (c : Char) : String :=
  if c = ' ' then "+"
  else if ('A' ≤ c ∧ c ≤ 'Z') ∨ ('a' ≤ c ∧ c ≤ 'z') ∨ ('0' ≤ c ∧ c ≤ '9') ∨
          c = '*' ∨ c = '-' ∨ c = '.' ∨ c = '_' then String.singleton c
  else String.join ((utf8Bytes c).map pctByte)

def formEncode (s : String) : String := String.join (s.toList.map formEncodeChar)

/-- Join strings with a separator. -/
def joinSep (sep : String) : List String → String
  | [] => ""
  | [x] => x
  | x :: y :: xs => x ++ sep ++ joinSep sep (y :: xs)

/-- `params.toString()` of a `URLSearchParams` built by successive `append`s. -/
def queryStringOf (ps : List (String × String)) : String :=
  joinSep "&" (ps.map fun p => formEncode p.1 ++ "=" ++ formEncode p.2)

/-- `encodeURIComponent` encoding of one character (unreserved set
`A-Z a-z 0-9 - _ . ! ~ * ' ( )`). -/
def uriComponentChar (c : Char) : String :=
  if ('A' ≤ c ∧ c ≤ 'Z') ∨ ('a' ≤ c ∧ c ≤ 'z') ∨ ('0' ≤ c ∧ c ≤ '9') ∨
     c = '-' ∨ c = '_' ∨ c = '.' ∨ c = '!' ∨ c = '~' ∨ c = '*' ∨
     c = Char.ofNat 39 ∨ c = '(' ∨ c = ')' then String.singleton c
  else String.join ((utf8Bytes c).map pctByte)

/-- axios's default params encoding: `encodeURIComponent` with `:$,[]`
restored and space rendered `+`. -/
def axiosEncodeChar (c : Char) : String :=
  if c = ':' ∨ c = '$' ∨ c = ',' ∨ c = '[' ∨ c = ']' then String.singleton c
  else if c = ' ' then "+"
  else uriComponentChar c

def axiosEncode (s : String) : String := String.join (s.toList.map axiosEncodeChar)

/-- axios's default serialization of a `params` config object. -/
def axiosQueryStringOf (ps : List (String × String)) : String :=
  joinSep "&" (ps.map fun p => axiosEncode p.1 ++ "=" ++ axiosEncode p.2)

/-- `if (value) params.append(key, value)`: append only when the optional
string is present and truthy (non-empty). -/
def optParam (ps : List (String × String)) (k : String) (v : Option String) :
    List (String × String) :=
  match v with
  | some s => if s = "" then ps else ps ++ [(k, s)]
  | none => ps

/-! ## The HTTP requests issued by the three wrapper versions -/

/-- An HTTP request as issued by a wrapper: method, path, query string
(including its leading `?` when one is emitted), JSON body. -/
structure Req where
  method : String
  path : String
  queryStr : String
  body : Option Json
deriving Repr

/-- `JSON.stringify` drops a key whose value is `undefined`. -/
def jsonOptField (k : String) (v : Option String) : List (String × Json) :=
  match v with
  | some s => [(k, Json.str s)]
  | none => []

/-- JS `value || defaultValue` on an optional string (empty string is falsy). -/
def jsOrDefault (v : Option String) (d : String) : String :=
  match v with
  | some s => if s = "" then d else s
  | none => d

/-- The `/auth/login` body `{ username, password }` (same in all wrappers). -/
def loginBody (username password : String) : Json :=
  Json.obj [("username", Json.str username), ("password", Json.str password)]

/-- The `/auth/register` body (same in all wrappers); `full_name` is dropped
when `fullName` is `undefined`. -/
def registerBody (username email password : String) (fullName : Option String) : Json :=
  Json.obj ([("username", Json.str username), ("email", Json.str email),
             ("password", Json.str password)] ++ jsonOptField "full_name" fullName)

/-- The `/troubleshoot` body (same in all wrappers): nested `equipment`,
optional `error_code`/`symptom`, `model_id` defaulted to
`claude-sonnet-4-5`. -/
def troubleshootBody (manufacturer model : String)
    (errorCode symptom modelId : Option String) : Json :=
  Json.obj
    ([("equipment", Json.obj [("manufacturer", Json.str manufacturer),
                              ("model", Json.str model)])] ++
     jsonOptField "error_code" errorCode ++ jsonOptField "symptom" symptom ++
     [("model_id", Json.str (jsOrDefault modelId "claude-sonnet-4-5"))])

/-- part_004 (axios wrapper): `login`. -/
def login4Req (username password : String) : Req :=
  { method := "POST", path := "/auth/login", queryStr := "",
    body := some (loginBody username password) }

/-- part_005 (fetch wrapper): `login`. -/
def login5Req (username password : String) : Req :=
  { method := "POST", path := "/auth/login", queryStr := "",
    body := some (loginBody username password) }

/-- part_006 (fetch wrapper): `login`. -/
def login6Req (username password : String) : Req :=
  { method := "POST", path := "/auth/login", queryStr := "",
    body := some (loginBody username password) }

def register4Req (username email password : String) (fullName : Option String) : Req :=
  { method := "POST", path := "/auth/register", queryStr := "",
    body := some (registerBody username email password fullName) }

def register5Req (username email password : String) (fullName : Option String) : Req :=
  { method := "POST", path := "/auth/register", queryStr := "",
    body := some (registerBody username email password fullName) }

def register6Req (username email password : String) (fullName : Option String) : Req :=
  { method := "POST", path := "/auth/register", queryStr := "",
    body := some (registerBody username email password fullName) }

def getCurrentUser4Req : Req :=
  { method := "GET", path := "/auth/me", queryStr := "", body := none }

def getCurrentUser5Req : Req :=
  { method := "GET", path := "/auth/me", queryStr := "", body := none }

def getCurrentUser6Req : Req :=
  { method := "GET", path := "/auth/me", queryStr := "", body := none }

def troubleshoot4Req (manufacturer model : String)
    (errorCode symptom modelId : Option String) : Req :=
  { method := "POST", path := "/troubleshoot", queryStr := "",
    body := some (troubleshootBody manufacturer model errorCode symptom modelId) }

def troubleshoot5Req (manufacturer model : String)
    (errorCode symptom modelId : Option String) : Req :=
  { method := "POST", path := "/troubleshoot", queryStr := "",
    body := some (troubleshootBody manufacturer model errorCode symptom modelId) }

def troubleshoot6Req (manufacturer model : String)
    (errorCode symptom modelId : Option String) : Req :=
  { method := "POST", path := "/troubleshoot", queryStr := "",
    body := some (troubleshootBody manufacturer model errorCode symptom modelId) }

/-- part_004 `getManuals` query parameters: `manufacturer`, `model`,
`manual_type`, each appended only when truthy. -/
def getManuals4Params (manufacturer model manualType : Option String) :
    List (String × String) :=
  optParam (optParam (optParam [] "manufacturer" manufacturer) "model" model)
    "manual_type" manualType

/-- part_004 `getManuals`: `/manuals?${params.toString()}` — the `?` is always
present, even with no parameters. -/
def getManuals4Req (manufacturer model manualType : Option String) : Req :=
  { method := "GET", path := "/manuals",
    queryStr := "?" ++ queryStringOf (getManuals4Params manufacturer model manualType),
    body := none }

/-- part_005 `getManuals` query parameters: note the keys `brand`,
`equipment_type` and `status_filter`. -/
def getManuals5Params (manufacturer model equipmentType statusFilter : Option String) :
    List (String × String) :=
  optParam (optParam (optParam (optParam [] "brand" manufacturer) "model" model)
    "equipment_type" equipmentType) "status_filter" statusFilter

/-- part_005 `getManuals`: the `?` is emitted only when some parameter is. -/
def getManuals5Req (manufacturer model equipmentType statusFilter : Option String) : Req :=
  { method := "GET", path := "/manuals",
    queryStr :=
      (let qs := queryStringOf
        (getManuals5Params manufacturer model equipmentType statusFilter)
       if qs = "" then "" else "?" ++ qs),
    body := none }

def getManuals6Params (manufacturer model manualType : Option String) :
    List (String × String) :=
  optParam (optParam (optParam [] "manufacturer" manufacturer) "model" model)
    "manual_type" manualType

/-- part_006 `getManuals`: the `?` is emitted only when some parameter is. -/
def getManuals6Req (manufacturer model manualType : Option String) : Req :=
  { method := "GET", path := "/manuals",
    queryStr :=
      (let qs := queryStringOf (getManuals6Params manufacturer model manualType)
       if qs = "" then "" else "?" ++ qs),
    body := none }

def getManual4Req (manualId : Nat) : Req :=
  { method := "GET", path := "/manuals/" ++ toString manualId, queryStr := "",
    body := none }

def getManual5Req (manualId : Nat) : Req :=
  { method := "GET", path := "/manuals/" ++ toString manualId, queryStr := "",
    body := none }

def getManual6Req (manualId : Nat) : Req :=
  { method := "GET", path := "/manuals/" ++ toString manualId, queryStr := "",
    body := none }

/-- part_004 `searchManual`: `api.post('/manuals/search', null, { params })`,
params serialized by axios into the query string, `null` body. -/
def searchManual4Req (manufacturer model manualType : String) : Req :=
  { method := "POST", path := "/manuals/search",
    queryStr := "?" ++ axiosQueryStringOf
      [("manufacturer", manufacturer), ("model", model), ("manual_type", manualType)],
    body := none }

/-- part_005 `searchManual`: no `/manuals/search` call at all — it issues the
`getManuals` listing for the given manufacturer and model. -/
def searchManual5Req (manufacturer model : String) : Req :=
  getManuals5Req (some manufacturer) (some model) none none

/-- part_006 `searchManual`: `POST /manuals/search?${params.toString()}`. -/
def searchManual6Req (manufacturer model manualType : String) : Req :=
  { method := "POST", path := "/manuals/search",
    queryStr := "?" ++ queryStringOf
      [("manufacturer", manufacturer), ("model", model), ("manual_type", manualType)],
    body := none }

def getHealth4Req : Req :=
  { method := "GET", path := "/health", queryStr := "", body := none }

def getHealth5Req : Req :=
  { method := "GET", path := "/health", queryStr := "", body := none }

def getHealth6Req : Req :=
  { method := "GET", path := "/health", queryStr := "", body := none }

def getStats4Req : Req :=
  { method := "GET", path := "/stats", queryStr := "", body := none }

def getStats5Req : Req :=
  { method := "GET", path := "/stats", queryStr := "", body := none }

def getStats6Req : Req :=
  { method := "GET", path := "/stats", queryStr := "", body := none }

/-- part_004 `logout`: only deletes the stored token; no HTTP request. -/
def logout4 (store : List (String × String)) : List (String × String) :=
  sdel store "accessToken"

/-- part_005 `logout`: only deletes the stored token; no HTTP request. -/
def logout5 (store : List (String × String)) : List (String × String) :=
  sdel store "accessToken"

/-- part_006 `logout`: only deletes the stored token; no HTTP request. -/
def logout6 (store : List (String × String)) : List (String × String) :=
  sdel store "accessToken"

/-! ## `handleResponse` and `login` (parts 005/006 fetch, part 004 axios) -/

/-- A fetch `Response` as the wrappers consume it: the `ok` flag, the numeric
status, and the outcome of `response.json()` (a parsed value, or a rejection
when the body is not valid JSON). -/
structure JsResponse where
  ok : Bool
  status : Nat
  jsonResult : Except Unit Json

/-- A thrown JS exception: a JSON `SyntaxError` from `response.json()`, or an
`Error` carrying a message. -/
inductive JsError where
  | parseError
  | error (msg : String)
deriving DecidableEq, Repr

/-- Property access `obj[k]` on a JSON value: `undefined` (`none`) when the
value is not an object or lacks the key. -/
def jget (j : Json) (k : String) : Option Json :=
  match j with
  | Json.obj fields => (fields.find? (fun p => p.1 == k)).map (fun p => p.2)
  | _ => none

/-- JS truthiness of a JSON value. -/
def jsTruthy : Json → Bool
  | Json.null => false
  | Json.bool b => b
  | Json.num n => !(n == 0)
  | Json.str s => !(s == "")
  | Json.arr _ => true
  | Json.obj _ => true

mutual
/-- JS `String(value)` coercion of a JSON value (used by `new Error(x)`). -/
def jsToString : Json → String
  | Json.null => "null"
  | Json.bool b => cond b "true" "false"
  | Json.num n => toString n
  | Json.str s => s
  | Json.arr xs => jsListStr xs
  | Json.obj _ => "[object Object]"

/-- `Array.prototype.join(',')` over the coerced elements. -/
def jsListStr : List Json → String
  | [] => ""
  | [x] => jsElemStr x
  | x :: y :: xs => jsElemStr x ++ "," ++ jsListStr (y :: xs)

/-- A `null` array element joins as the empty string. -/
def jsElemStr : Json → String
  | Json.null => ""
  | j => jsToString j
end

/-- `await response.json().catch(() => ({}))`: the parsed error body, or an
empty object when the body is not valid JSON. -/
def errorBody (r : JsResponse) : Json :=
  match r.jsonResult with
  | Except.ok j => j
  | Except.error _ => Json.obj []

/-- `handleResponse` shared shape of part_005 and part_006 (they differ only
in the fallback message): on `ok`, return the parsed JSON (propagating the
parse rejection); otherwise throw an `Error` whose message is the truthy
`detail` field of the error body, or the wrapper's fallback text. -/
def handleResponseWith (fallback : Nat → String) (r : JsResponse) :
    Except JsError Json :=
  if r.ok then
    match r.jsonResult with
    | Except.ok j => Except.ok j
    | Except.error _ => Except.error JsError.parseError
  else
    match jget (errorBody r) "detail" with
    | some v =>
        if jsTruthy v then Except.error (JsError.error (jsToString v))
        else Except.error (JsError.error (fallback r.status))
    | none => Except.error (JsError.error (fallback r.status))

/-- part_005 `handleResponse`: fallback message `HTTP error <status>`. -/
def handleResponse5 (r : JsResponse) : Except JsError Json :=
  handleResponseWith (fun s => "HTTP error " ++ toString s) r

/-- part_006 `handleResponse`: fallback message `HTTP error! status: <status>`. -/
def handleResponse6 (r : JsResponse) : Except JsError Json :=
  handleResponseWith (fun s => "HTTP error! status: " ++ toString s) r

/-- `SecureStore.setItemAsync` (expo-secure-store library behavior): stores a
string value; a missing or non-string value makes the call reject. -/
def setItemAsync (k : String) (v : Option Json) (store : List (String × String)) :
    Except JsError (List (String × String)) :=
  match v with
  | some (Json.str t) => Except.ok (hset k t store)
  | _ => Except.error (JsError.error "Invalid value provided to SecureStore")

/-- `login` of the fetch wrappers: send the request, run `handleResponse`
(throwing on a non-ok response before any store access), then store
`data.access_token` under `accessToken`. Returns the store after the call
together with the result or the thrown error. -/
def loginWith (handler : JsResponse → Except JsError Json) (r : JsResponse)
    (store : List (String × String)) :
    List (String × String) × Except JsError Json :=
  match handler r with
  | Except.error e => (store, Except.error e)
  | Except.ok data =>
      match setItemAsync "accessToken" (jget data "access_token") store with
      | Except.error e => (store, Except.error e)
      | Except.ok store2 => (store2, Except.ok data)

def login5 (r : JsResponse) (store : List (String × String)) :
    List (String × String) × Except JsError Json :=
  loginWith handleResponse5 r store

def login6 (r : JsResponse) (store : List (String × String)) :
    List (String × String) × Except JsError Json :=
  loginWith handleResponse6 r store

/-- An axios response: axios itself rejects on a non-2xx status, so the
wrapper code only sees `response.data` when `ok` holds. -/
structure AxiosResponse where
  ok : Bool
  status : Nat
  data : Json

/-- part_004 `login`: axios throws on a non-ok status before any store
access; on success the wrapper stores `response.data.access_token`. -/
def login4 (r : AxiosResponse) (store : List (String × String)) :
    List (String × String) × Except JsError Json :=
  if r.ok then
    match setItemAsync "accessToken" (jget r.data "access_token") store with
    | Except.error e => (store, Except.error e)
    | Except.ok store2 => (store2, Except.ok r.data)
  else
    (store, Except.error (JsError.error
      ("Request failed with status code " ++ toString r.status)))

/-! ## part_005 `searchManual` result object -/

/-- `response?.data?.manuals || []`: the manuals value when present and
truthy, else an empty array. -/
def manualsOf (reply : Json) : Json :=
  match (jget reply "data").bind (fun d => jget d "manuals") with
  | some v => if jsTruthy v then v else Json.arr []
  | none => Json.arr []

/-- `value.length > 0` in JS: positive length of an array or string; `false`
for values with an undefined `length`. -/
def jsLenPos : Json → Bool
  | Json.arr xs => !xs.isEmpty
  | Json.str s => !(s == "")
  | _ => false

/-- The object part_005's `searchManual` returns, computed from the parsed
`getManuals` reply. -/
def searchManual5Result (reply : Json) : Json :=
  let manuals := manualsOf reply
  let found := jsLenPos manuals
  Json.obj [("success", Json.bool true),
    ("data", Json.obj
      [("found", Json.bool found),
       ("already_in_library", Json.bool found),
       ("auto_downloaded", Json.bool false),
       ("page_count", Json.null),
       ("source", Json.null),
       ("download_error", Json.null),
       ("message", Json.str
         (if found then "Manual exists in indexed library."
          else "Manual search endpoint is not available in this build. Upload PDF manually."))])]

/-- Field access on the `data` object of `searchManual`'s result. -/
def resultField (reply : Json) (k : String) : Option Json :=
  (jget (searchManual5Result reply) "data").bind (fun d => jget d k)

/-! ## Characterization of `updateFirst` -/

theorem updateFirst_fst_none (p : CacheEntry → Bool) (f : CacheEntry → CacheEntry) :
    ∀ l : List CacheEntry, ((updateFirst p f l).1 = none ↔ ∀ e ∈ l, p e = false) := by
  intro l
  induction l with
  | nil => simp [updateFirst]
  | cons a as ih =>
    by_cases hp : p a
    · simp [updateFirst, hp]
    · simp [updateFirst, hp, ih, List.forall_mem_cons]

theorem updateFirst_snd_of_none (p : CacheEntry → Bool) (f : CacheEntry → CacheEntry) :
    ∀ l : List CacheEntry, (updateFirst p f l).1 = none → (updateFirst p f l).2 = l := by
  intro l
  induction l with
  | nil => simp [updateFirst]
  | cons a as ih =>
    by_cases hp : p a
    · simp [updateFirst, hp]
    · intro h
      simp only [updateFirst, hp] at h ⊢
      simp_all

theorem updateFirst_spec (p : CacheEntry → Bool) (f : CacheEntry → CacheEntry) :
    ∀ (l : List CacheEntry) (r : CacheEntry), (updateFirst p f l).1 = some r →
      ∃ l1 e l2, l = l1 ++ e :: l2 ∧ (∀ x ∈ l1, p x = false) ∧ p e = true ∧
        r = f e ∧ (updateFirst p f l).2 = l1 ++ f e :: l2 := by
  intro l
  induction l with
  | nil => intro r h; simp [updateFirst] at h
  | cons a as ih =>
    intro r h
    by_cases hp : p a
    · refine ⟨[], a, as, rfl, by simp, hp, ?_, ?_⟩
      · simp [updateFirst, hp] at h
        exact h.symm
      · simp [updateFirst, hp]
    · simp only [updateFirst, hp, if_false, Bool.false_eq_true] at h
      obtain ⟨l1, e, l2, hl, hl1, hpe, hr, hsnd⟩ := ih r h
      refine ⟨a :: l1, e, l2, by simp [hl], ?_, hpe, hr, ?_⟩
      · intro x hx
        rcases List.mem_cons.mp hx with hx | hx
        · subst hx; simpa using hp
        · exact hl1 x hx
      · simp only [updateFirst, hp, if_false, Bool.false_eq_true]
        simp [hsnd]

theorem updateFirst_fst_some_of_exists (p : CacheEntry → Bool) (f : CacheEntry → CacheEntry)
    (l : List CacheEntry) (h : ∃ e ∈ l, p e = true) :
    ∃ r, (updateFirst p f l).1 = some r := by
  cases hr : (updateFirst p f l).1 with
  | some r => exact ⟨r, rfl⟩
  | none =>
    obtain ⟨e, he, hpe⟩ := h
    have := (updateFirst_fst_none p f l).mp hr e he
    rw [hpe] at this
    exact absurd this (by simp)

theorem updateFirst_snd_map {α : Type} (p : CacheEntry → Bool) (f : CacheEntry → CacheEntry)
    (g : CacheEntry → α) (hg : ∀ e, g (f e) = g e) :
    ∀ l : List CacheEntry, ((updateFirst p f l).2).map g = l.map g := by
  intro l
  induction l with
  | nil => simp [updateFirst]
  | cons a as ih =>
    by_cases hp : p a
    · simp [updateFirst, hp, hg]
    · simp [updateFirst, hp, ih]

theorem updateFirst_preserves (p : CacheEntry → Bool) (f : CacheEntry → CacheEntry)
    (P : CacheEntry → Prop) (hf : ∀ e, P e → P (f e)) :
    ∀ l : List CacheEntry, (∀ e ∈ l, P e) → ∀ e ∈ (updateFirst p f l).2, P e := by
  intro l
  induction l with
  | nil => simp [updateFirst]
  | cons a as ih =>
    intro hl e he
    by_cases hp : p a
    · simp only [updateFirst, hp, if_true] at he
      rcases List.mem_cons.mp he with he | he
      · subst he; exact hf a (hl a (List.mem_cons_self a as))
      · exact hl e (List.mem_cons_of_mem a he)
    · simp only [updateFirst, hp, if_false, Bool.false_eq_true] at he
      rcases List.mem_cons.mp he with he | he
      · subst he; exact hl e (List.mem_cons_self e as)
      · exact ih (fun x hx => hl x (List.mem_cons_of_mem a hx)) e he

theorem updateFirst_snd_length (p : CacheEntry → Bool) (f : CacheEntry → CacheEntry) :
    ∀ l : List CacheEntry, ((updateFirst p f l).2).length = l.length := by
  intro l
  induction l with
  | nil => simp [updateFirst]
  | cons a as ih =>
    by_cases hp : p a
    · simp [updateFirst, hp]
    · simp [updateFirst, hp, ih]

/-! ## Inversion lemmas for `check_cache` and `save_to_cache` -/

theorem check_cache_eq_none {db : CacheDB} {now : Nat} {m mo : String}
    {ec sy : Option String} {db1 : CacheDB}
    (h : check_cache db now m mo ec sy = (none, db1)) :
    (updateFirst (liveMatch (create_query_hash m mo (ec.getD "") (sy.getD "")) now)
       (bumpServed now) db.entries).1 = none ∧
    db1 = ⟨(updateFirst (liveMatch (create_query_hash m mo (ec.getD "") (sy.getD "")) now)
       (bumpServed now) db.entries).2⟩ := by
  simp only [check_cache] at h
  split at h
  · simp at h
  · next heq =>
    simp only [Prod.mk.injEq] at h
    exact ⟨heq, h.2.symm⟩

theorem check_cache_eq_some {db : CacheDB} {now : Nat} {m mo : String}
    {ec sy : Option String} {hit : CacheHit} {db1 : CacheDB}
    (h : check_cache db now m mo ec sy = (some hit, db1)) :
    ∃ r, (updateFirst (liveMatch (create_query_hash m mo (ec.getD "") (sy.getD "")) now)
            (bumpServed now) db.entries).1 = some r ∧
      hit = ⟨r.responseData, r.createdAt, r.timesServed⟩ ∧
      db1 = ⟨(updateFirst (liveMatch (create_query_hash m mo (ec.getD "") (sy.getD "")) now)
         (bumpServed now) db.entries).2⟩ := by
  simp only [check_cache] at h
  split at h
  · next r heq =>
    simp only [Prod.mk.injEq, Option.some.injEq] at h
    exact ⟨r, heq, h.1.symm, h.2.symm⟩
  · simp at h

theorem save_to_cache_entries (db : CacheDB) (now : Nat) (m mo : String)
    (ec sy : Option String) (resp : Json) (ids : List Int) (rt cu : Int) :
    (save_to_cache db now m mo ec sy resp ids rt cu).entries =
      (match (updateFirst (hashMatch (create_query_hash m mo (ec.getD "") (sy.getD "")))
               (saveUpd resp ids rt cu now) db.entries).1 with
       | some _ =>
           (updateFirst (hashMatch (create_query_hash m mo (ec.getD "") (sy.getD "")))
             (saveUpd resp ids rt cu now) db.entries).2
       | none =>
           db.entries ++
             [newEntry now m mo ec sy (create_query_hash m mo (ec.getD "") (sy.getD ""))
                resp ids rt cu]) := by
  simp only [save_to_cache]
  split <;> rfl

/-! ## Validation of the SHA-256 embedding against the standard test vectors -/

theorem sha256_empty_vector :
    sha256Hex (strBytes "") =
      "e3b0c44298fc1c149afbf4c8996fb92427ae41e4649b934ca495991b7852b855" := by decide

theorem sha256_abc_vector :
    sha256Hex (strBytes "abc") =
      "ba7816bf8f01cfea414140de5dae2223b00361a396177a9cb410ff61f20015ad" := by decide

/-- The hash of the query (manufacturer `a`, model `b`, no error code, no
symptom), cross-checked against CPython's
`hashlib.sha256(json.dumps(data, sort_keys=True).encode()).hexdigest()`. -/
theorem create_query_hash_ab_value :
    create_query_hash "a" "b" "" "" =
      "d305cbe41ac511ece226047740b47fa0e543dd9e264c308d25396fed00a57c2a" := by decide

/-! ## C1 — the troubleshoot endpoint consults the cache first -/

/-- C1: for every troubleshoot request the endpoint consults the cache first;
on a cache hit it returns the cached response and the external AI API is not
called (no `aiCall` event); only on a miss does it call the AI, save the fresh
response to the cache, and return that fresh response. -/
theorem troubleshoot_cache_first (ai : TRequest → AIResult) (db : CacheDB)
    (now : Nat) (req : TRequest) :
    (∀ hit db1,
        check_cache db now req.manufacturer req.model req.errorCode req.symptom =
          (some hit, db1) →
        troubleshoot ai db now req =
          (RouteResult.cached hit, db1, [RouteEvent.cacheCheck]) ∧
        RouteEvent.aiCall ∉ [RouteEvent.cacheCheck]) ∧
    (∀ db1,
        check_cache db now req.manufacturer req.model req.errorCode req.symptom =
          (none, db1) →
        troubleshoot ai db now req =
          (RouteResult.fresh (ai req).response,
           save_to_cache db1 now req.manufacturer req.model req.errorCode req.symptom
             (ai req).response (ai req).manualIds (ai req).responseTimeMs (ai req).costUsd,
           [RouteEvent.cacheCheck, RouteEvent.aiCall, RouteEvent.cacheSave])) := by
  constructor
  · intro hit db1 h
    refine ⟨?_, by decide⟩
    simp [troubleshoot, h]
  · intro db1 h
    simp [troubleshoot, h]

/-- Witness for C1: on the one-row cache above, a lookup at time 200 hits
(returning the stored response with `times_served` bumped to 2), and a lookup
at the expiry instant misses, calls the AI and saves the fresh response. -/
theorem troubleshoot_cache_first_witness :
    (troubleshoot sampleAI sampleDB 200 sampleReq =
      (RouteResult.cached ⟨Json.str "steps", 100, 2⟩,
       ⟨[bumpServed 200 sampleEntry]⟩, [RouteEvent.cacheCheck]) ∧
     RouteEvent.aiCall ∉ [RouteEvent.cacheCheck]) ∧
    troubleshoot sampleAI sampleDB (100 + thirtyDays) sampleReq =
      (RouteResult.fresh (Json.str "fresh"),
       save_to_cache sampleDB (100 + thirtyDays) "a" "b" none none
         (Json.str "fresh") [] 5 0,
       [RouteEvent.cacheCheck, RouteEvent.aiCall, RouteEvent.cacheSave]) :=
  ⟨(troubleshoot_cache_first sampleAI sampleDB 200 sampleReq).1
      ⟨Json.str "steps", 100, 2⟩ ⟨[bumpServed 200 sampleEntry]⟩ (by rfl),
   (troubleshoot_cache_first sampleAI sampleDB (100 + thirtyDays) sampleReq).2
      sampleDB (by rfl)⟩

/-! ## C3 — 30-day expiry, never serving an expired entry -/

/-- C3: every cache entry's expiration time is 30 days after its creation time
(the invariant holds for every row `save_to_cache` inserts and is preserved by
both cache operations), and a `check_cache` hit always comes from an entry
whose expiration time is strictly later than the lookup time. -/
theorem cache_thirty_day_expiry :
    (∀ db now m mo ec sy resp ids rt cu, (∀ e ∈ db.entries, entryTTL e) →
        ∀ e ∈ (save_to_cache db now m mo ec sy resp ids rt cu).entries, entryTTL e) ∧
    (∀ db now m mo ec sy, (∀ e ∈ db.entries, entryTTL e) →
        ∀ e ∈ (check_cache db now m mo ec sy).2.entries, entryTTL e) ∧
    (∀ db now m mo ec sy hit db1,
        check_cache db now m mo ec sy = (some hit, db1) →
        ∃ e ∈ db.entries,
          e.queryHash = create_query_hash m mo (ec.getD "") (sy.getD "") ∧
          hit.response = e.responseData ∧ now < e.expiresAt) := by
  refine ⟨?_, ?_, ?_⟩
  · intro db now m mo ec sy resp ids rt cu hdb e he
    rw [save_to_cache_entries] at he
    split at he
    · exact updateFirst_preserves _ (saveUpd resp ids rt cu now) entryTTL
        (fun a ha => ha) db.entries hdb e he
    · rcases List.mem_append.mp he with h1 | h2
      · exact hdb e h1
      · rw [List.mem_singleton.mp h2]; rfl
  · intro db now m mo ec sy hdb e he
    have hsnd : (check_cache db now m mo ec sy).2.entries =
        (updateFirst (liveMatch (create_query_hash m mo (ec.getD "") (sy.getD "")) now)
          (bumpServed now) db.entries).2 := by
      simp only [check_cache]
      split <;> rfl
    rw [hsnd] at he
    exact updateFirst_preserves _ (bumpServed now) entryTTL
      (fun a ha => ha) db.entries hdb e he
  · intro db now m mo ec sy hit db1 h
    obtain ⟨r, hr, hhit, -⟩ := check_cache_eq_some h
    obtain ⟨l1, e, l2, hl, -, hpe, hre, -⟩ := updateFirst_spec _ _ db.entries r hr
    simp only [liveMatch, Bool.and_eq_true, beq_iff_eq, decide_eq_true_eq] at hpe
    obtain ⟨hq, hlt⟩ := hpe
    refine ⟨e, ?_, hq, ?_, hlt⟩
    · rw [hl]
      exact List.mem_append_right _ (List.mem_cons_self e l2)
    · subst hre hhit
      rfl

/-- Witness for C3: all three parts applied to the one-row cache: the TTL
invariant survives a save and a lookup, and the time-200 hit is served from an
entry expiring strictly later. -/
theorem cache_thirty_day_expiry_witness :
    (∀ e ∈ (save_to_cache sampleDB 200 "a" "b" none none (Json.str "x") [] 5 0).entries,
        entryTTL e) ∧
    (∀ e ∈ (check_cache sampleDB 200 "a" "b" none none).2.entries, entryTTL e) ∧
    (∃ e ∈ sampleDB.entries,
        e.queryHash = create_query_hash "a" "b" "" "" ∧
        (Json.str "steps" : Json) = e.responseData ∧ 200 < e.expiresAt) :=
  ⟨cache_thirty_day_expiry.1 sampleDB 200 "a" "b" none none (Json.str "x") [] 5 0
      (by intro e he; rw [List.mem_singleton.mp he]; rfl),
   cache_thirty_day_expiry.2.1 sampleDB 200 "a" "b" none none
      (by intro e he; rw [List.mem_singleton.mp he]; rfl),
   cache_thirty_day_expiry.2.2 sampleDB 200 "a" "b" none none
      ⟨Json.str "steps", 100, 2⟩ ⟨[bumpServed 200 sampleEntry]⟩ (by rfl)⟩

/-! ## C4 — frame conditions of `check_cache` -/

/-- C4: on a hit, `check_cache` bumps the first live matching entry's
`times_served` by exactly 1 and sets its `last_served` to the lookup time,
leaving all its other fields and all other entries unchanged (the record
update and the list decomposition express exactly that); on a miss it leaves
the cache unchanged and reports not-found. -/
theorem check_cache_frame (db : CacheDB) (now : Nat) (m mo : String)
    (ec sy : Option String) :
    (∀ db1, check_cache db now m mo ec sy = (none, db1) → db1 = db) ∧
    (∀ hit db1, check_cache db now m mo ec sy = (some hit, db1) →
        ∃ l1 e l2, db.entries = l1 ++ e :: l2 ∧
          liveMatch (create_query_hash m mo (ec.getD "") (sy.getD "")) now e = true ∧
          (∀ x ∈ l1,
            liveMatch (create_query_hash m mo (ec.getD "") (sy.getD "")) now x = false) ∧
          hit = ⟨e.responseData, e.createdAt, e.timesServed + 1⟩ ∧
          db1.entries =
            l1 ++ { e with timesServed := e.timesServed + 1, lastServed := now } :: l2) := by
  constructor
  · intro db1 h
    obtain ⟨h1, h2⟩ := check_cache_eq_none h
    rw [h2, updateFirst_snd_of_none _ _ db.entries h1]
  · intro hit db1 h
    obtain ⟨r, hr, hhit, hdb1⟩ := check_cache_eq_some h
    obtain ⟨l1, e, l2, hl, hl1, hpe, hre, hsnd⟩ := updateFirst_spec _ _ db.entries r hr
    refine ⟨l1, e, l2, hl, hpe, hl1, ?_, ?_⟩
    · subst hre
      exact hhit
    · rw [hdb1]
      rw [hsnd]
      rfl

/-- Witness for C4: at the expiry instant the lookup misses and the cache is
untouched; at time 200 the lookup hits and rewrites exactly the one entry. -/
theorem check_cache_frame_witness :
    sampleDB = sampleDB ∧
    (∃ l1 e l2, sampleDB.entries = l1 ++ e :: l2 ∧
      liveMatch (create_query_hash "a" "b" "" "") 200 e = true ∧
      (∀ x ∈ l1, liveMatch (create_query_hash "a" "b" "" "") 200 x = false) ∧
      (⟨Json.str "steps", 100, 2⟩ : CacheHit) =
        ⟨e.responseData, e.createdAt, e.timesServed + 1⟩ ∧
      (⟨[bumpServed 200 sampleEntry]⟩ : CacheDB).entries =
        l1 ++ { e with timesServed := e.timesServed + 1, lastServed := 200 } :: l2) :=
  ⟨(check_cache_frame sampleDB (100 + thirtyDays) "a" "b" none none).1 sampleDB (by rfl),
   (check_cache_frame sampleDB 200 "a" "b" none none).2
      ⟨Json.str "steps", 100, 2⟩ ⟨[bumpServed 200 sampleEntry]⟩ (by rfl)⟩

/-! ## C7 — the query hash is the cache's unique lookup key -/

theorem newEntry_queryHash (now : Nat) (m mo : String) (ec sy : Option String)
    (h : String) (resp : Json) (ids : List Int) (rt cu : Int) :
    (newEntry now m mo ec sy h resp ids rt cu).queryHash = h := by
  unfold newEntry
  rfl

set_option maxHeartbeats 1000000 in
/-- C7: hash uniqueness is preserved by `save_to_cache`; when the hash is
already present the save overwrites that single row in place (same row count),
when absent it inserts exactly one new row with that hash; and a `check_cache`
hit is located by hash equality. -/
theorem query_hash_unique_key :
    (∀ db now m mo ec sy resp ids rt cu, hashesNodup db →
        hashesNodup (save_to_cache db now m mo ec sy resp ids rt cu)) ∧
    (∀ db now m mo ec sy resp ids rt cu,
        (∃ e ∈ db.entries,
          e.queryHash = create_query_hash m mo (ec.getD "") (sy.getD "")) →
        ∃ l1 e l2, db.entries = l1 ++ e :: l2 ∧
          e.queryHash = create_query_hash m mo (ec.getD "") (sy.getD "") ∧
          (save_to_cache db now m mo ec sy resp ids rt cu).entries =
            l1 ++ saveUpd resp ids rt cu now e :: l2 ∧
          (save_to_cache db now m mo ec sy resp ids rt cu).entries.length =
            db.entries.length) ∧
    (∀ db now m mo ec sy resp ids rt cu,
        (∀ e ∈ db.entries,
          e.queryHash ≠ create_query_hash m mo (ec.getD "") (sy.getD "")) →
        (save_to_cache db now m mo ec sy resp ids rt cu).entries =
          db.entries ++
            [newEntry now m mo ec sy (create_query_hash m mo (ec.getD "") (sy.getD ""))
               resp ids rt cu]) ∧
    (∀ db now m mo ec sy hit db1, check_cache db now m mo ec sy = (some hit, db1) →
        ∃ e ∈ db.entries,
          e.queryHash = create_query_hash m mo (ec.getD "") (sy.getD "")) := by
  refine ⟨?_, ?_, ?_, ?_⟩
  · intro db now m mo ec sy resp ids rt cu hdb
    unfold hashesNodup
    rw [save_to_cache_entries]
    split
    · rw [updateFirst_snd_map (hashMatch (create_query_hash m mo (ec.getD "") (sy.getD "")))
            (saveUpd resp ids rt cu now) CacheEntry.queryHash (fun e => rfl) db.entries]
      exact hdb
    · next heq =>
      have hnot : create_query_hash m mo (ec.getD "") (sy.getD "") ∉
          db.entries.map CacheEntry.queryHash := by
        intro hmem
        obtain ⟨e, he, hqe⟩ := List.mem_map.mp hmem
        have := (updateFirst_fst_none _ _ db.entries).mp heq e he
        simp [hashMatch, hqe] at this
      rw [List.map_append]
      simp only [List.map_cons, List.map_nil, newEntry_queryHash]
      exact List.Nodup.append hdb (List.nodup_singleton _)
        (List.disjoint_singleton.mpr hnot)
  · intro db now m mo ec sy resp ids rt cu hex
    obtain ⟨e0, he0, hh0⟩ := hex
    obtain ⟨r, hr⟩ := updateFirst_fst_some_of_exists
      (hashMatch (create_query_hash m mo (ec.getD "") (sy.getD "")))
      (saveUpd resp ids rt cu now) db.entries
      ⟨e0, he0, by simp [hashMatch, hh0]⟩
    obtain ⟨l1, e, l2, hl, hl1, hpe, hre, hsnd⟩ := updateFirst_spec _ _ db.entries r hr
    refine ⟨l1, e, l2, hl, by simpa [hashMatch] using hpe, ?_, ?_⟩
    · rw [save_to_cache_entries]
      rw [hr]
      exact hsnd
    · rw [save_to_cache_entries]
      rw [hr]
      exact updateFirst_snd_length _ _ db.entries
  · intro db now m mo ec sy resp ids rt cu hnone
    have h1 : (updateFirst
        (hashMatch (create_query_hash m mo (ec.getD "") (sy.getD "")))
        (saveUpd resp ids rt cu now) db.entries).1 = none :=
      (updateFirst_fst_none _ _ db.entries).mpr
        (fun e he => by simpa [hashMatch] using hnone e he)
    rw [save_to_cache_entries]
    rw [h1]
  · intro db now m mo ec sy hit db1 h
    obtain ⟨r, hr, -, -⟩ := check_cache_eq_some h
    obtain ⟨l1, e, l2, hl, -, hpe, -, -⟩ := updateFirst_spec _ _ db.entries r hr
    simp only [liveMatch, Bool.and_eq_true, beq_iff_eq, decide_eq_true_eq] at hpe
    refine ⟨e, ?_, hpe.1⟩
    rw [hl]
    exact List.mem_append_right _ (List.mem_cons_self e l2)

set_option maxHeartbeats 2000000 in
/-- Witness for C7: all four parts applied to concrete caches — the one-row
cache keeps unique hashes through a save, the save for the present hash
overwrites that row, a save into the empty cache inserts exactly one row, and
the time-200 hit was located by hash equality. -/
theorem query_hash_unique_key_witness :
    hashesNodup (save_to_cache sampleDB 200 "a" "b" none none (Json.str "x") [] 5 0) ∧
    (∃ l1 e l2, sampleDB.entries = l1 ++ e :: l2 ∧
      e.queryHash = create_query_hash "a" "b" "" "" ∧
      (save_to_cache sampleDB 200 "a" "b" none none (Json.str "x") [] 5 0).entries =
        l1 ++ saveUpd (Json.str "x") [] 5 0 200 e :: l2 ∧
      (save_to_cache sampleDB 200 "a" "b" none none (Json.str "x") [] 5 0).entries.length =
        sampleDB.entries.length) ∧
    (save_to_cache emptyDB 300 "a" "b" none none (Json.str "y") [] 7 0).entries =
      emptyDB.entries ++
        [newEntry 300 "a" "b" none none (create_query_hash "a" "b" "" "")
           (Json.str "y") [] 7 0] ∧
    (∃ e ∈ sampleDB.entries, e.queryHash = create_query_hash "a" "b" "" "") :=
  ⟨query_hash_unique_key.1 sampleDB 200 "a" "b" none none (Json.str "x") [] 5 0
      (show (sampleDB.entries.map CacheEntry.queryHash).Nodup by decide),
   query_hash_unique_key.2.1 sampleDB 200 "a" "b" none none (Json.str "x") [] 5 0
      ⟨sampleEntry, List.mem_singleton.mpr rfl, by rfl⟩,
   query_hash_unique_key.2.2.1 emptyDB 300 "a" "b" none none (Json.str "y") [] 7 0
      (by intro e he; exact absurd he (List.not_mem_nil e)),
   query_hash_unique_key.2.2.2 sampleDB 200 "a" "b" none none
      ⟨Json.str "steps", 100, 2⟩ ⟨[bumpServed 200 sampleEntry]⟩ (by rfl)⟩

/-! ## C2 — determinism and normalization-invariance of the query hash -/

/-- C2: `create_query_hash` is exactly the hex SHA-256 digest of the
sorted-key JSON encoding of the normalized query fields, and any two queries
with the same normalization produce the same hash. -/
theorem create_query_hash_deterministic :
    (∀ m mo ec sy, create_query_hash m mo ec sy =
        sha256Hex (strBytes (queryJson (normalizeQuery m mo ec sy)))) ∧
    (∀ m1 mo1 ec1 sy1 m2 mo2 ec2 sy2,
        normalizeQuery m1 mo1 ec1 sy1 = normalizeQuery m2 mo2 ec2 sy2 →
        create_query_hash m1 mo1 ec1 sy1 = create_query_hash m2 mo2 ec2 sy2) := by
  refine ⟨fun m mo ec sy => rfl, ?_⟩
  intro m1 mo1 ec1 sy1 m2 mo2 ec2 sy2 h
  unfold create_query_hash
  rw [h]

/-- Witness for C2: two raw queries differing in case and whitespace
normalize identically, so their hashes agree. -/
theorem create_query_hash_deterministic_witness :
    normalizeQuery "  TurboChef " "NGCD6" "f1" "blower not working" =
      normalizeQuery "turbochef" "ngcd6" "F1 " "Blower Not Working" ∧
    create_query_hash "  TurboChef " "NGCD6" "f1" "blower not working" =
      create_query_hash "turbochef" "ngcd6" "F1 " "Blower Not Working" :=
  ⟨by decide,
   create_query_hash_deterministic.2 _ _ _ _ _ _ _ _ (by decide)⟩

/-! ## Header lemmas for C5 -/

theorem hget_hset_self (k v : String) :
    ∀ m : List (String × String), hget (hset k v m) k = some v := by
  intro m
  induction m with
  | nil => simp [hset, hget]
  | cons p ps ih =>
    by_cases h : p.1 == k
    · simp [hset, hget, h]
    · simp only [hset, h, Bool.false_eq_true, if_false]
      simpa [hget, List.find?_cons, h] using ih

theorem hget_hset_ne (k v k' : String) (hne : (k' == k) = false) :
    ∀ m : List (String × String), hget (hset k v m) k' = hget m k' := by
  intro m
  have hne' : k ≠ k' := fun h => by subst h; simp at hne
  have hkk : (k == k') = false := beq_eq_false_iff_ne.mpr hne'
  induction m with
  | nil => simp [hset, hget, hkk]
  | cons p ps ih =>
    by_cases h : p.1 == k
    · have hpk : (p.1 == k') = false := by
        have h1 : p.1 = k := by simpa using h
        subst h1
        simpa [BEq.comm] using hne
      simp [hset, hget, h, hpk, hne]
      have h1 : p.1 = k := by simpa using h
      simp [h1] at hpk
      simp [hpk]
    · simp only [hset, h, Bool.false_eq_true, if_false]
      by_cases hp : p.1 == k'
      · simp [hget, List.find?_cons, hp]
      · simpa [hget, List.find?_cons, hp] using ih

theorem hget_foldl_hset (k : String) :
    ∀ (ch : List (String × String)) (m : List (String × String)),
      (∀ p ∈ ch, p.1 ≠ k) →
      hget (ch.foldl (fun m p => hset p.1 p.2 m) m) k = hget m k := by
  intro ch
  induction ch with
  | nil => intro m _; rfl
  | cons p ps ih =>
    intro m hch
    have hpk : (k == p.1) = false := by
      have := hch p (List.mem_cons_self p ps)
      simpa [BEq.comm, beq_eq_false_iff_ne] using (Ne.symm this)
    calc hget ((p :: ps).foldl (fun m q => hset q.1 q.2 m) m) k
        = hget (ps.foldl (fun m q => hset q.1 q.2 m) (hset p.1 p.2 m)) k := rfl
      _ = hget (hset p.1 p.2 m) k :=
          ih (hset p.1 p.2 m) (fun q hq => hch q (List.mem_cons_of_mem p hq))
      _ = hget m k := hget_hset_ne p.1 p.2 k hpk m

/-! ## C5 — headers carried by the authenticated request paths -/

/-- C5 counterexample: a caller-supplied `Content-Type` header is spread over
the wrapper's default after it, so the request does not carry
`application/json` — the claim's unconditional Content-Type clause fails. -/
theorem fetch_content_type_counterexample :
    hget (fetchWithAuthHeaders none [("Content-Type", "text/plain")])
        "Content-Type" = some "text/plain" ∧
    (some "text/plain" : Option String) ≠ some "application/json" := by
  constructor
  · rfl
  · decide

/-- C5 (amended): every request through `fetchWithAuth` carries
`Content-Type: application/json` unless the caller supplies its own
Content-Type header (no caller in the repo does); `Authorization: Bearer t`
is present whenever the store holds a truthy (non-empty) token `t` — the
injection happens after the caller spread, so it wins — and absent when the
store holds no token or an empty one and the caller supplies no Authorization
header; the axios instance behaves the same with its default headers and
request interceptor. -/
theorem fetch_auth_headers (store ch : List (String × String)) :
    ((∀ p ∈ ch, p.1 ≠ "Content-Type") →
        hget (fetchWithAuthHeaders (getAuthToken store) ch) "Content-Type" =
          some "application/json") ∧
    (∀ t, getAuthToken store = some t → t ≠ "" →
        hget (fetchWithAuthHeaders (getAuthToken store) ch) "Authorization" =
          some ("Bearer " ++ t)) ∧
    ((∀ p ∈ ch, p.1 ≠ "Authorization") →
        (getAuthToken store = none ∨ getAuthToken store = some "") →
        hget (fetchWithAuthHeaders (getAuthToken store) ch) "Authorization" = none) ∧
    hget (axiosRequestHeaders (getAuthToken store)) "Content-Type" =
      some "application/json" ∧
    (∀ t, getAuthToken store = some t → t ≠ "" →
        hget (axiosRequestHeaders (getAuthToken store)) "Authorization" =
          some ("Bearer " ++ t)) ∧
    ((getAuthToken store = none ∨ getAuthToken store = some "") →
        hget (axiosRequestHeaders (getAuthToken store)) "Authorization" = none) := by
  have hnoauth : ∀ (ch : List (String × String)), (∀ p ∈ ch, p.1 ≠ "Authorization") →
      hget (ch.foldl (fun m p => hset p.1 p.2 m) [("Content-Type", "application/json")])
        "Authorization" = none := by
    intro ch hch
    rw [hget_foldl_hset "Authorization" ch [("Content-Type", "application/json")] hch]
    rfl
  refine ⟨?_, ?_, ?_, ?_, ?_, ?_⟩
  · intro hch
    cases ht : getAuthToken store with
    | none =>
        simp only [fetchWithAuthHeaders]
        exact hget_foldl_hset "Content-Type" ch [("Content-Type", "application/json")] hch
    | some t =>
        by_cases he : t = ""
        · simp only [fetchWithAuthHeaders, he, if_pos rfl]
          exact hget_foldl_hset "Content-Type" ch [("Content-Type", "application/json")] hch
        · simp only [fetchWithAuthHeaders, if_neg he]
          rw [hget_hset_ne "Authorization" ("Bearer " ++ t) "Content-Type" (by decide)]
          exact hget_foldl_hset "Content-Type" ch [("Content-Type", "application/json")] hch
  · intro t ht he
    simp only [fetchWithAuthHeaders, ht, if_neg he]
    exact hget_hset_self "Authorization" ("Bearer " ++ t) _
  · intro hch ht
    rcases ht with ht | ht
    · simp only [fetchWithAuthHeaders, ht]
      exact hnoauth ch hch
    · simp only [fetchWithAuthHeaders, ht, if_pos rfl]
      exact hnoauth ch hch
  · cases ht : getAuthToken store with
    | none => rfl
    | some t =>
        by_cases he : t = ""
        · subst he
          rfl
        · simp only [axiosRequestHeaders, if_neg he]
          rw [hget_hset_ne "Authorization" ("Bearer " ++ t) "Content-Type" (by decide)]
          rfl
  · intro t ht he
    simp only [axiosRequestHeaders, ht, if_neg he]
    exact hget_hset_self "Authorization" ("Bearer " ++ t) _
  · intro ht
    rcases ht with ht | ht
    · simp only [axiosRequestHeaders, ht]
      rfl
    · simp only [axiosRequestHeaders, ht, if_pos rfl]
      rfl

/-- Witness for C5 (amended): with non-empty token `tok` stored and an
unrelated caller header, the request carries the JSON Content-Type and the
Bearer header; with an empty store, and with an empty-string token stored
(falsy under `if (token)`), no Authorization header is sent. -/
theorem fetch_auth_headers_witness :
    hget (fetchWithAuthHeaders (getAuthToken [("accessToken", "tok")])
        [("Accept", "text/html")]) "Content-Type" = some "application/json" ∧
    hget (fetchWithAuthHeaders (getAuthToken [("accessToken", "tok")])
        [("Accept", "text/html")]) "Authorization" = some ("Bearer " ++ "tok") ∧
    hget (fetchWithAuthHeaders (getAuthToken []) []) "Authorization" = none ∧
    hget (fetchWithAuthHeaders (getAuthToken [("accessToken", "")]) [])
        "Authorization" = none ∧
    hget (axiosRequestHeaders (getAuthToken [("accessToken", "tok")]))
        "Authorization" = some ("Bearer " ++ "tok") ∧
    hget (axiosRequestHeaders (getAuthToken [("accessToken", "")]))
        "Authorization" = none :=
  ⟨(fetch_auth_headers [("accessToken", "tok")] [("Accept", "text/html")]).1
      (by decide),
   (fetch_auth_headers [("accessToken", "tok")] [("Accept", "text/html")]).2.1
      "tok" (by decide) (by decide),
   (fetch_auth_headers [] []).2.2.1 (by decide) (Or.inl (by decide)),
   (fetch_auth_headers [("accessToken", "")] []).2.2.1 (by decide)
      (Or.inr (by decide)),
   (fetch_auth_headers [("accessToken", "tok")] []).2.2.2.2.1 "tok"
      (by decide) (by decide),
   (fetch_auth_headers [("accessToken", "")] []).2.2.2.2.2 (Or.inr (by decide))⟩

/-! ## C6 — are the three wrappers interchangeable? -/

/-- C6 counterexample: `searchManual` is exported by all three wrappers, yet
part_005's version issues `GET /manuals` (a library listing) while
part_006's issues `POST /manuals/search` — different method and path at the
same argument list, refuting interchangeability. -/
theorem api_wrappers_not_interchangeable :
    (searchManual5Req "A" "B").method = "GET" ∧
    (searchManual6Req "A" "B" "service").method = "POST" ∧
    (searchManual5Req "A" "B").path = "/manuals" ∧
    (searchManual6Req "A" "B" "service").path = "/manuals/search" ∧
    (searchManual5Req "A" "B").method ≠ (searchManual6Req "A" "B" "service").method := by
  refine ⟨rfl, rfl, rfl, rfl, by decide⟩

/-- C6 (amended): the wrappers do issue identical requests for login,
register, logout, getCurrentUser, troubleshoot, getManual, getHealth and
getStats; `getManuals` agrees between part_004 and part_006 whenever at least
one filter is passed (part_004 appends a bare `?` when none is), while
part_005's `getManuals` renames the parameters (`brand`, `equipment_type`,
`status_filter`); `searchManual` agrees between part_004 and part_006 on
method, path and body, while part_005's issues the `GET /manuals` listing
instead. -/
theorem api_wrappers_equivalence :
    (∀ u p, login4Req u p = login5Req u p ∧ login5Req u p = login6Req u p) ∧
    (∀ u e p f, register4Req u e p f = register5Req u e p f ∧
        register5Req u e p f = register6Req u e p f) ∧
    (∀ s, logout4 s = logout5 s ∧ logout5 s = logout6 s) ∧
    (getCurrentUser4Req = getCurrentUser5Req ∧
        getCurrentUser5Req = getCurrentUser6Req) ∧
    (∀ m mo ec sy mi, troubleshoot4Req m mo ec sy mi = troubleshoot5Req m mo ec sy mi ∧
        troubleshoot5Req m mo ec sy mi = troubleshoot6Req m mo ec sy mi) ∧
    (∀ i, getManual4Req i = getManual5Req i ∧ getManual5Req i = getManual6Req i) ∧
    (getHealth4Req = getHealth5Req ∧ getHealth5Req = getHealth6Req) ∧
    (getStats4Req = getStats5Req ∧ getStats5Req = getStats6Req) ∧
    (∀ a b c, queryStringOf (getManuals4Params a b c) ≠ "" →
        getManuals4Req a b c = getManuals6Req a b c) ∧
    (∀ m mo mt, (searchManual4Req m mo mt).method = (searchManual6Req m mo mt).method ∧
        (searchManual4Req m mo mt).path = (searchManual6Req m mo mt).path ∧
        (searchManual4Req m mo mt).body = (searchManual6Req m mo mt).body) ∧
    (getManuals5Req (some "A") (some "B") none none).queryStr = "?brand=A&model=B" ∧
    (getManuals6Req (some "A") (some "B") none).queryStr = "?manufacturer=A&model=B" := by
  refine ⟨fun u p => ⟨rfl, rfl⟩, fun u e p f => ⟨rfl, rfl⟩, fun s => ⟨rfl, rfl⟩,
    ⟨rfl, rfl⟩, fun m mo ec sy mi => ⟨rfl, rfl⟩, fun i => ⟨rfl, rfl⟩,
    ⟨rfl, rfl⟩, ⟨rfl, rfl⟩, ?_, fun m mo mt => ⟨rfl, rfl, rfl⟩, by decide, by decide⟩
  intro a b c h
  simp only [getManuals4Req, getManuals6Req]
  have hpar : getManuals6Params a b c = getManuals4Params a b c := rfl
  rw [hpar, if_neg h]

/-- Witness for C6 (amended): the agreeing operations at concrete arguments,
and `getManuals` agreement between part_004 and part_006 once a filter is
passed. -/
theorem api_wrappers_equivalence_witness :
    (login4Req "u" "p" = login5Req "u" "p" ∧ login5Req "u" "p" = login6Req "u" "p") ∧
    (troubleshoot4Req "A" "B" (some "F1") none none =
        troubleshoot5Req "A" "B" (some "F1") none none ∧
     troubleshoot5Req "A" "B" (some "F1") none none =
        troubleshoot6Req "A" "B" (some "F1") none none) ∧
    getManuals4Req (some "A") (some "B") none = getManuals6Req (some "A") (some "B") none :=
  ⟨api_wrappers_equivalence.1 "u" "p",
   api_wrappers_equivalence.2.2.2.2.1 "A" "B" (some "F1") none none,
   api_wrappers_equivalence.2.2.2.2.2.2.2.2.1 (some "A") (some "B") none (by decide)⟩

/-! ## C8 — `handleResponse` behavior -/

/-- C8 counterexample: the claim fails on the code in three ways — an ok
response whose body is not valid JSON makes `handleResponse` throw (the
`response.json()` rejection propagates); part_006's fallback message is
`HTTP error! status: <s>`, not `HTTP error <s>`; and a present-but-falsy
`detail` (here the empty string) is not used as the message. -/
theorem handleResponse_counterexample :
    ((⟨true, 200, Except.error ()⟩ : JsResponse).ok = true ∧
      handleResponse5 ⟨true, 200, Except.error ()⟩ =
        Except.error JsError.parseError) ∧
    handleResponse6 ⟨false, 404, Except.error ()⟩ =
      Except.error (JsError.error "HTTP error! status: 404") ∧
    ("HTTP error! status: 404" : String) ≠ "HTTP error 404" ∧
    handleResponse5 ⟨false, 500, Except.ok (Json.obj [("detail", Json.str "")])⟩ =
      Except.error (JsError.error "HTTP error 500") :=
  ⟨⟨rfl, rfl⟩, rfl, by decide, rfl⟩

/-- C8 (amended): `handleResponse` returns the parsed JSON body exactly when
`ok` holds and the body parses (it throws the parse rejection on an ok
response with an invalid body); on a non-ok response it throws an `Error`
whose message is the string coercion of the error body's `detail` field when
that field is present and truthy, and otherwise the wrapper's fallback text —
`HTTP error <status>` in part_005, `HTTP error! status: <status>` in
part_006. -/
theorem handleResponse_spec (r : JsResponse) :
    (∀ j, r.ok = true → r.jsonResult = Except.ok j →
        handleResponse5 r = Except.ok j ∧ handleResponse6 r = Except.ok j) ∧
    (r.ok = true → r.jsonResult = Except.error () →
        handleResponse5 r = Except.error JsError.parseError ∧
        handleResponse6 r = Except.error JsError.parseError) ∧
    (∀ v, r.ok = false → jget (errorBody r) "detail" = some v → jsTruthy v = true →
        handleResponse5 r = Except.error (JsError.error (jsToString v)) ∧
        handleResponse6 r = Except.error (JsError.error (jsToString v))) ∧
    (∀ v, r.ok = false → jget (errorBody r) "detail" = some v → jsTruthy v = false →
        handleResponse5 r =
          Except.error (JsError.error ("HTTP error " ++ toString r.status)) ∧
        handleResponse6 r =
          Except.error (JsError.error ("HTTP error! status: " ++ toString r.status))) ∧
    (r.ok = false → jget (errorBody r) "detail" = none →
        handleResponse5 r =
          Except.error (JsError.error ("HTTP error " ++ toString r.status)) ∧
        handleResponse6 r =
          Except.error (JsError.error ("HTTP error! status: " ++ toString r.status))) := by
  refine ⟨?_, ?_, ?_, ?_, ?_⟩
  · intro j hok hj
    constructor <;> simp [handleResponse5, handleResponse6, handleResponseWith, hok, hj]
  · intro hok hj
    constructor <;> simp [handleResponse5, handleResponse6, handleResponseWith, hok, hj]
  · intro v hok hv htr
    constructor <;>
      simp [handleResponse5, handleResponse6, handleResponseWith, hok, hv, htr]
  · intro v hok hv htr
    constructor <;>
      simp [handleResponse5, handleResponse6, handleResponseWith, hok, hv, htr]
  · intro hok hv
    constructor <;>
      simp [handleResponse5, handleResponse6, handleResponseWith, hok, hv]

/-- Witness for C8 (amended): all five cases at concrete responses — a parsed
ok body is returned, an invalid ok body throws the parse error, a truthy
`detail` becomes the message, and a falsy or missing `detail` falls back to
each wrapper's own message. -/
theorem handleResponse_spec_witness :
    (handleResponse5 ⟨true, 200, Except.ok (Json.str "fine")⟩ =
        Except.ok (Json.str "fine") ∧
      handleResponse6 ⟨true, 200, Except.ok (Json.str "fine")⟩ =
        Except.ok (Json.str "fine")) ∧
    (handleResponse5 ⟨true, 200, Except.error ()⟩ =
        Except.error JsError.parseError ∧
      handleResponse6 ⟨true, 200, Except.error ()⟩ =
        Except.error JsError.parseError) ∧
    (handleResponse5 ⟨false, 404, Except.ok (Json.obj [("detail", Json.str "Not found")])⟩ =
        Except.error (JsError.error (jsToString (Json.str "Not found"))) ∧
      handleResponse6 ⟨false, 404, Except.ok (Json.obj [("detail", Json.str "Not found")])⟩ =
        Except.error (JsError.error (jsToString (Json.str "Not found")))) ∧
    (handleResponse5 ⟨false, 500, Except.ok (Json.obj [("detail", Json.str "")])⟩ =
        Except.error (JsError.error ("HTTP error " ++ toString 500)) ∧
      handleResponse6 ⟨false, 500, Except.ok (Json.obj [("detail", Json.str "")])⟩ =
        Except.error (JsError.error ("HTTP error! status: " ++ toString 500))) ∧
    (handleResponse5 ⟨false, 503, Except.ok (Json.obj [])⟩ =
        Except.error (JsError.error ("HTTP error " ++ toString 503)) ∧
      handleResponse6 ⟨false, 503, Except.ok (Json.obj [])⟩ =
        Except.error (JsError.error ("HTTP error! status: " ++ toString 503))) :=
  ⟨(handleResponse_spec ⟨true, 200, Except.ok (Json.str "fine")⟩).1
      (Json.str "fine") rfl rfl,
   (handleResponse_spec ⟨true, 200, Except.error ()⟩).2.1 rfl rfl,
   (handleResponse_spec ⟨false, 404, Except.ok (Json.obj [("detail", Json.str "Not found")])⟩).2.2.1
      (Json.str "Not found") rfl rfl (by decide),
   (handleResponse_spec ⟨false, 500, Except.ok (Json.obj [("detail", Json.str "")])⟩).2.2.2.1
      (Json.str "") rfl rfl (by decide),
   (handleResponse_spec ⟨false, 503, Except.ok (Json.obj [])⟩).2.2.2.2 rfl rfl⟩

/-! ## C9 — part_005's `searchManual` is a library listing -/

/-- C9: part_005's `searchManual` never requests any `/manuals/search`
endpoint — its only request is the `getManuals` listing (`GET /manuals`) for
the given manufacturer and model — and its result object has
`found = already_in_library = (manual list non-empty)`,
`auto_downloaded = false`, `source = null` and `page_count = null`. -/
theorem searchManual5_spec (m mo : String) :
    searchManual5Req m mo = getManuals5Req (some m) (some mo) none none ∧
    (searchManual5Req m mo).method = "GET" ∧
    (searchManual5Req m mo).path = "/manuals" ∧
    (searchManual5Req m mo).path ≠ "/manuals/search" ∧
    (∀ reply xs,
        (jget reply "data").bind (fun d => jget d "manuals") = some (Json.arr xs) →
        resultField reply "found" = some (Json.bool (!xs.isEmpty)) ∧
        resultField reply "already_in_library" = some (Json.bool (!xs.isEmpty)) ∧
        resultField reply "auto_downloaded" = some (Json.bool false) ∧
        resultField reply "source" = some Json.null ∧
        resultField reply "page_count" = some Json.null) ∧
    (∀ reply, (jget reply "data").bind (fun d => jget d "manuals") = none →
        resultField reply "found" = some (Json.bool false) ∧
        resultField reply "already_in_library" = some (Json.bool false) ∧
        resultField reply "auto_downloaded" = some (Json.bool false) ∧
        resultField reply "source" = some Json.null ∧
        resultField reply "page_count" = some Json.null) := by
  refine ⟨rfl, rfl, rfl, ?_, ?_, ?_⟩
  case refine_1 =>
    show ("/manuals" : String) ≠ "/manuals/search"
    decide
  · intro reply xs h
    have hm : manualsOf reply = Json.arr xs := by
      simp [manualsOf, h, jsTruthy]
    refine ⟨?_, ?_, ?_, ?_, ?_⟩ <;>
      simp [resultField, searchManual5Result, hm, jget, jsLenPos]
  · intro reply h
    have hm : manualsOf reply = Json.arr [] := by
      simp [manualsOf, h]
    refine ⟨?_, ?_, ?_, ?_, ?_⟩ <;>
      simp [resultField, searchManual5Result, hm, jget, jsLenPos]

/-- Witness for C9: a reply listing one manual yields `found = true`, and a
reply with no `data.manuals` field yields `found = false`; the result shape
fields are as claimed. -/
theorem searchManual5_spec_witness :
    (resultField (Json.obj [("data", Json.obj [("manuals", Json.arr [Json.str "m1"])])])
        "found" = some (Json.bool (!([Json.str "m1"] : List Json).isEmpty)) ∧
      resultField (Json.obj [("data", Json.obj [("manuals", Json.arr [Json.str "m1"])])])
        "already_in_library" = some (Json.bool (!([Json.str "m1"] : List Json).isEmpty)) ∧
      resultField (Json.obj [("data", Json.obj [("manuals", Json.arr [Json.str "m1"])])])
        "auto_downloaded" = some (Json.bool false) ∧
      resultField (Json.obj [("data", Json.obj [("manuals", Json.arr [Json.str "m1"])])])
        "source" = some Json.null ∧
      resultField (Json.obj [("data", Json.obj [("manuals", Json.arr [Json.str "m1"])])])
        "page_count" = some Json.null) ∧
    (resultField (Json.str "no-data") "found" = some (Json.bool false) ∧
      resultField (Json.str "no-data") "already_in_library" = some (Json.bool false) ∧
      resultField (Json.str "no-data") "auto_downloaded" = some (Json.bool false) ∧
      resultField (Json.str "no-data") "source" = some Json.null ∧
      resultField (Json.str "no-data") "page_count" = some Json.null) :=
  ⟨(searchManual5_spec "A" "B").2.2.2.2.1
      (Json.obj [("data", Json.obj [("manuals", Json.arr [Json.str "m1"])])])
      [Json.str "m1"] rfl,
   (searchManual5_spec "A" "B").2.2.2.2.2 (Json.str "no-data") rfl⟩

/-! ## Inversion lemmas for `handleResponse` and `loginWith` -/

theorem handleResponseWith_not_ok (fb : Nat → String) (r : JsResponse)
    (h : r.ok = false) :
    ∃ msg, handleResponseWith fb r = Except.error (JsError.error msg) := by
  unfold handleResponseWith
  rw [if_neg (by simp [h])]
  cases hm : jget (errorBody r) "detail" with
  | some v =>
      by_cases ht : jsTruthy v
      · exact ⟨jsToString v, by simp [ht]⟩
      · exact ⟨fb r.status, by simp [ht]⟩
  | none => exact ⟨fb r.status, rfl⟩

theorem handleResponseWith_ok_inv (fb : Nat → String) (r : JsResponse) (data : Json)
    (h : handleResponseWith fb r = Except.ok data) :
    r.ok = true ∧ r.jsonResult = Except.ok data := by
  by_cases hok : r.ok
  · refine ⟨hok, ?_⟩
    unfold handleResponseWith at h
    rw [if_pos hok] at h
    cases hj : r.jsonResult with
    | ok j =>
        rw [hj] at h
        simp only [Except.ok.injEq] at h
        rw [h]
    | error e =>
        rw [hj] at h
        simp at h
  · exfalso
    unfold handleResponseWith at h
    rw [if_neg hok] at h
    cases hm : jget (errorBody r) "detail" with
    | some v =>
        rw [hm] at h
        by_cases ht : jsTruthy v <;> simp [ht] at h
    | none =>
        rw [hm] at h
        simp at h

theorem loginWith_store_cases (handler : JsResponse → Except JsError Json)
    (r : JsResponse) (store : List (String × String))
    (hinv : ∀ data, handler r = Except.ok data →
        r.ok = true ∧ r.jsonResult = Except.ok data) :
    (loginWith handler r store).1 = store ∨
    (r.ok = true ∧ ∃ data t, r.jsonResult = Except.ok data ∧
        jget data "access_token" = some (Json.str t) ∧
        (loginWith handler r store).1 = hset "accessToken" t store) := by
  cases hh : handler r with
  | error e => left; simp [loginWith, hh]
  | ok data =>
      obtain ⟨hok, hjs⟩ := hinv data hh
      cases hj : jget data "access_token" with
      | none => left; simp [loginWith, hh, setItemAsync, hj]
      | some v =>
          cases v with
          | str t =>
              right
              exact ⟨hok, data, t, hjs, hj, by simp [loginWith, hh, setItemAsync, hj]⟩
          | null => left; simp [loginWith, hh, setItemAsync, hj]
          | bool b => left; simp [loginWith, hh, setItemAsync, hj]
          | num n => left; simp [loginWith, hh, setItemAsync, hj]
          | arr xs => left; simp [loginWith, hh, setItemAsync, hj]
          | obj fs => left; simp [loginWith, hh, setItemAsync, hj]

/-! ## C10 — the login token is stored only after an ok response -/

/-- C10: in every wrapper, `login` writes the secure store only after an ok
response; a non-ok response makes the wrapper throw with the store untouched;
and when the store does change, the change is exactly the write of the ok
body's `access_token` string under the key `accessToken`. -/
theorem login_token_write_guard :
    (∀ (r : JsResponse) store, r.ok = false →
        (login5 r store).1 = store ∧ (∃ e, (login5 r store).2 = Except.error e) ∧
        (login6 r store).1 = store ∧ (∃ e, (login6 r store).2 = Except.error e)) ∧
    (∀ (r : AxiosResponse) store, r.ok = false →
        (login4 r store).1 = store ∧ (∃ e, (login4 r store).2 = Except.error e)) ∧
    (∀ (r : JsResponse) store,
        (login5 r store).1 = store ∨
        (r.ok = true ∧ ∃ data t, r.jsonResult = Except.ok data ∧
            jget data "access_token" = some (Json.str t) ∧
            (login5 r store).1 = hset "accessToken" t store)) ∧
    (∀ (r : JsResponse) store,
        (login6 r store).1 = store ∨
        (r.ok = true ∧ ∃ data t, r.jsonResult = Except.ok data ∧
            jget data "access_token" = some (Json.str t) ∧
            (login6 r store).1 = hset "accessToken" t store)) ∧
    (∀ (r : AxiosResponse) store,
        (login4 r store).1 = store ∨
        (r.ok = true ∧ ∃ t, jget r.data "access_token" = some (Json.str t) ∧
            (login4 r store).1 = hset "accessToken" t store)) := by
  refine ⟨?_, ?_, ?_, ?_, ?_⟩
  · intro r store h
    obtain ⟨m5, hm5⟩ := handleResponseWith_not_ok (fun s => "HTTP error " ++ toString s) r h
    obtain ⟨m6, hm6⟩ := handleResponseWith_not_ok
      (fun s => "HTTP error! status: " ++ toString s) r h
    refine ⟨?_, ⟨JsError.error m5, ?_⟩, ?_, ⟨JsError.error m6, ?_⟩⟩ <;>
      simp [login5, login6, loginWith, handleResponse5, handleResponse6, hm5, hm6]
  · intro r store h
    simp [login4, h]
  · intro r store
    exact loginWith_store_cases handleResponse5 r store
      (fun data hd => handleResponseWith_ok_inv _ r data hd)
  · intro r store
    exact loginWith_store_cases handleResponse6 r store
      (fun data hd => handleResponseWith_ok_inv _ r data hd)
  · intro r store
    by_cases h : r.ok
    · cases hj : jget r.data "access_token" with
      | none => left; simp [login4, h, setItemAsync, hj]
      | some v =>
          cases v with
          | str t => right; exact ⟨h, t, rfl, by simp [login4, h, setItemAsync, hj]⟩
          | null => left; simp [login4, h, setItemAsync, hj]
          | bool b => left; simp [login4, h, setItemAsync, hj]
          | num n => left; simp [login4, h, setItemAsync, hj]
          | arr xs => left; simp [login4, h, setItemAsync, hj]
          | obj fs => left; simp [login4, h, setItemAsync, hj]
    · left; simp [login4, h]

/-- Witness for C10: a 401 response leaves the empty store empty and throws in
both fetch wrappers and in the axios wrapper. -/
theorem login_token_write_guard_witness :
    ((login5 ⟨false, 401, Except.ok (Json.obj [("detail", Json.str "bad")])⟩ []).1 = [] ∧
      (∃ e, (login5 ⟨false, 401, Except.ok (Json.obj [("detail", Json.str "bad")])⟩ []).2 =
        Except.error e) ∧
      (login6 ⟨false, 401, Except.ok (Json.obj [("detail", Json.str "bad")])⟩ []).1 = [] ∧
      (∃ e, (login6 ⟨false, 401, Except.ok (Json.obj [("detail", Json.str "bad")])⟩ []).2 =
        Except.error e)) ∧
    ((login4 ⟨false, 401, Json.obj []⟩ []).1 = [] ∧
      (∃ e, (login4 ⟨false, 401, Json.obj []⟩ []).2 = Except.error e)) :=
  ⟨login_token_write_guard.1 ⟨false, 401, Except.ok (Json.obj [("detail", Json.str "bad")])⟩
      [] rfl,
   login_token_write_guard.2.1 ⟨false, 401, Json.obj []⟩ [] rfl⟩

end TechCopilot
